import Mathlib

/-!
Shallow embedding of the AMT-8000 ISEC2 client and polling coordinator
(`custom_components/amt8000/isec2/client.py` and
`custom_components/amt8000/coordinator.py`).

Bytes are modelled as `Nat` (values below 256 where the code receives real
bytes); byte strings as `List Nat`.  Python dicts with fixed string keys are
modelled as structures; the `zones` dict (insertion-ordered) as an
association list `List (Nat × String)` keyed by the 1-based zone number.
-/

set_option maxRecDepth 10000

namespace Amt8000

/-- `dst_id = [0x00, 0x00]` from client.py. -/
def dst_id : List Nat := [0x00, 0x00]

/-- `our_id = [0x8F, 0xFF]` from client.py. -/
def our_id : List Nat := [0x8F, 0xFF]

/-- `commands["arm_disarm"] = [0x40, 0x1e]` from client.py. -/
def command_arm_disarm : List Nat := [0x40, 0x1e]

/-- `ZONE_PAYLOAD_OFFSET = 64`: first zone byte within the payload. -/
def ZONE_PAYLOAD_OFFSET : Nat := 64

/-- `MAX_ZONES = 64`. -/
def MAX_ZONES : Nat := 64

/-- `calculate_checksum(buffer)`: running XOR of every byte, then XOR with
0xFF, then masked with 0xFF. -/
def calculate_checksum (buffer : List Nat) : Nat :=
  ((buffer.foldl (fun checksum value => checksum ^^^ value) 0) ^^^ 0xFF) &&& 0xFF

/-- `merge_octets(buf) = buf[0] * 256 + buf[1]`.  Call sites always pass a
two-byte slice; out-of-range indices default to 0 here. -/
def merge_octets (buf : List Nat) : Nat :=
  buf.getD 0 0 * 256 + buf.getD 1 0

/-- `battery_status_for(resp)`: byte 134 of the payload, guarded by length. -/
def battery_status_for (resp : List Nat) : String :=
  if resp.length ≤ 134 then "unknown"
  else
    let batt := resp.getD 134 0
    if batt = 0x01 then "dead"
    else if batt = 0x02 then "low"
    else if batt = 0x03 then "middle"
    else if batt = 0x04 then "full"
    else "unknown"

/-- `get_status(payload)`: arming state from bits 5-6 of payload byte 20. -/
def get_status (payload : List Nat) : String :=
  if payload.length ≤ 20 then "unknown"
  else
    let status := (payload.getD 20 0 >>> 5) &&& 0x03
    if status = 0x00 then "disarmed"
    else if status = 0x01 then "partial_armed"
    else if status = 0x03 then "armed_away"
    else "unknown"

/-- The fully-defaulted status dict returned by `build_status` for too-short
input, with every field at its documented default. -/
structure PanelStatus where
  model : String
  version : String
  status : String
  zonesFiring : Bool
  zonesClosed : Bool
  siren : Bool
  batteryStatus : String
  tamper : Bool
  zones : List (Nat × String)
deriving Repr, DecidableEq

/-- The default record built in both early-return branches of
`build_status`. -/
def unknown_status : PanelStatus :=
  { model := "Unknown"
    version := "Unknown"
    status := "unknown"
    zonesFiring := false
    zonesClosed := false
    siren := false
    batteryStatus := "unknown"
    tamper := false
    zones := [] }

/-- The inner `for bit in range(8)` loop of the zone-processing part of
`build_status`: eight `(zone_number, state)` entries for one zone byte,
`zone_open = (byte_value & (1 << bit)) == 0`. -/
def zone_entries (byte_index byte_value : Nat) : List (Nat × String) :=
  (List.range 8).map (fun bit =>
    (byte_index * 8 + bit + 1,
     if byte_value &&& (1 <<< bit) = 0 then "open" else "closed"))

/-- The outer `for byte_index in range(8)` loop of `build_status`: the loop
breaks at the first `ZONE_PAYLOAD_OFFSET + byte_index` that is out of bounds,
so exactly `min 8 (len - ZONE_PAYLOAD_OFFSET)` bytes are consumed. -/
def build_zones (payload : List Nat) : List (Nat × String) :=
  ((List.range (min 8 (payload.length - ZONE_PAYLOAD_OFFSET))).map
    (fun byte_index =>
      zone_entries byte_index (payload.getD (ZONE_PAYLOAD_OFFSET + byte_index) 0))).flatten

/-- `build_status(data)`: decodes a raw status response.  Mirrors the Python
control flow: two early returns of the default record, payload slicing from
the declared length at bytes 4-5, then independently bounds-checked fields. -/
def build_status (data : List Nat) : PanelStatus :=
  if data.length < 8 then unknown_status
  else
    let length_bytes := (data.drop 4).take 2
    if length_bytes.length < 2 then unknown_status
    else
      let expected_payload_length := merge_octets length_bytes
      let payload :=
        if data.length < 8 + expected_payload_length then data.drop 8
        else (data.drop 8).take expected_payload_length
      { model :=
          if 0 < payload.length then
            (if payload.getD 0 0 = 1 then "AMT-8000" else "Unknown")
          else "Unknown"
        version :=
          if 3 < payload.length then
            toString (payload.getD 1 0) ++ "." ++ toString (payload.getD 2 0)
              ++ "." ++ toString (payload.getD 3 0)
          else "Unknown"
        status := if 20 < payload.length then get_status payload else "unknown"
        zonesFiring :=
          if 20 < payload.length then decide (0 < payload.getD 20 0 &&& 0x8) else false
        zonesClosed :=
          if 20 < payload.length then decide (0 < payload.getD 20 0 &&& 0x4) else false
        siren :=
          if 20 < payload.length then decide (0 < payload.getD 20 0 &&& 0x2) else false
        batteryStatus := battery_status_for payload
        tamper :=
          if 71 < payload.length then decide (0 < payload.getD 71 0 &&& (1 <<< 0x01))
          else false
        zones := build_zones payload }

/-- The password-validation loop of `Client.auth`: iterates over the password
characters; at each character it raises `CommunicationError` when the
password length is not 6 or the character is not a digit, otherwise appends
`int(char)`.  `Except.error` models the raise.  An empty password skips the
loop body entirely. -/
def auth_validate_go (password : List Char) : List Char → Except String (List Nat)
  | [] => Except.ok []
  | c :: rest =>
    if password.length ≠ 6 ∨ ¬ c.isDigit then
      Except.error "Cannot parse password, only 6 integers long are accepted"
    else
      match auth_validate_go password rest with
      | Except.ok arr => Except.ok ((c.toNat - 48) :: arr)
      | Except.error e => Except.error e

/-- The password validation performed by `Client.auth` before any socket
send/receive: the loop `for char in password` over the whole password. -/
def auth_validate (password : List Char) : Except String (List Nat) :=
  auth_validate_go password password

/-- The frame `Client.arm_system` sends for a given partition: partition 0 is
replaced by 0xFF, then
`dst_id + our_id + [0x00, 0x04] + commands["arm_disarm"] + [partition, 0x01]`
plus the checksum byte. -/
def arm_system_frame (partition : Nat) : List Nat :=
  let p := if partition = 0 then 0xFF else partition
  let arm_data := dst_id ++ our_id ++ [0x00, 0x04] ++ command_arm_disarm ++ [p, 0x01]
  arm_data ++ [calculate_checksum arm_data]

/-- The frame `Client.disarm_system` sends: same as arming with mode byte
0x00. -/
def disarm_system_frame (partition : Nat) : List Nat :=
  let p := if partition = 0 then 0xFF else partition
  let disarm_data := dst_id ++ our_id ++ [0x00, 0x04] ++ command_arm_disarm ++ [p, 0x00]
  disarm_data ++ [calculate_checksum disarm_data]

/-- Modelled from the spec (refinement check only): "the whole-frame XOR ...
when starting from an accumulator of 0 and excluding nothing".  The code has
no such verifier; this definition follows the spec's words so it can be
compared against `calculate_checksum`. -/
def spec_frame_xor (frame : List Nat) : Nat :=
  frame.foldl (fun acc b => acc ^^^ b) 0

/-- `self.max_retries = 5` from coordinator.py. -/
def max_retries : Nat := 5

/-- `AmtCoordinator._handle_communication_error`, restricted to its state
arithmetic: from the current consecutive-failure counter it produces the new
counter and the backoff in seconds.  `attempt = min(attempt + 1, 5)`; at the
cap the counter resets to 0 with a 300-second backoff, otherwise the backoff
is `min(2 ** attempt, 60)`. -/
def handle_communication_error (attempt : Nat) : Nat × Nat :=
  let a := min (attempt + 1) max_retries
  if max_retries ≤ a then (0, 300)
  else (a, min (2 ^ a) 60)

/-- `AmtCoordinator._handle_unexpected_error` state arithmetic: counter capped
at 5 (no reset), backoff `min(2 ** attempt, 120)`. -/
def handle_unexpected_error (attempt : Nat) : Nat × Nat :=
  let a := min (attempt + 1) max_retries
  (a, min (2 ^ a) 120)

/-- The backoff delays produced by `n` consecutive communication failures
starting from a given counter value. -/
def backoff_delays (attempt : Nat) : Nat → List Nat
  | 0 => []
  | n + 1 =>
    let step := handle_communication_error attempt
    step.2 :: backoff_delays step.1 n

/-- Coordinator state relevant to snapshot caching: the cached snapshot
(`self.stored_status`, `None` initially) and the consecutive-failure counter
(`self.attempt`).  The snapshot type is abstract. -/
structure CoordState (α : Type) where
  stored : Option α
  attempt : Nat
deriving Repr, DecidableEq

/-- The outcome of one poll attempt as seen by `_async_update_data`: either a
successfully processed snapshot, or one of the two handled exception kinds. -/
inductive PollOutcome (α : Type) where
  | success (snap : α)
  | commError
  | unexpectedError
deriving Repr, DecidableEq

/-- Whether an outcome is a success. -/
def PollOutcome.isSuccess {α : Type} : PollOutcome α → Bool
  | .success _ => true
  | _ => false

/-- One run of `AmtCoordinator._async_update_data`: on success the snapshot
is stored and the counter reset; on `CommunicationError` (resp. unexpected
error) the corresponding handler updates the counter and either returns the
stored snapshot, when one exists, or raises `UpdateFailed`
(`Except.error`). -/
def update_data {α : Type} (st : CoordState α) :
    PollOutcome α → CoordState α × Except String α
  | .success s => (⟨some s, 0⟩, Except.ok s)
  | .commError =>
    let step := handle_communication_error st.attempt
    match st.stored with
    | some d => (⟨some d, step.1⟩, Except.ok d)
    | none => (⟨none, step.1⟩, Except.error "UpdateFailed")
  | .unexpectedError =>
    let step := handle_unexpected_error st.attempt
    match st.stored with
    | some d => (⟨some d, step.1⟩, Except.ok d)
    | none => (⟨none, step.1⟩, Except.error "UpdateFailed")

/-- A sequence of poll cycles, threading the coordinator state. -/
def run_polls {α : Type} (st : CoordState α) (outcomes : List (PollOutcome α)) :
    CoordState α :=
  outcomes.foldl (fun s o => (update_data s o).1) st

/-! ## Helper lemmas -/

lemma foldl_xor_lt (l : List Nat) (acc : Nat) (hacc : acc < 256)
    (h : ∀ x ∈ l, x < 256) :
    l.foldl (fun checksum value => checksum ^^^ value) acc < 256 := by
  induction l generalizing acc with
  | nil => exact hacc
  | cons a t ih =>
    refine ih _ ?_ (fun x hx => h x (List.mem_cons_of_mem _ hx))
    have ha : a < 256 := h a (List.mem_cons_self _ _)
    have : (256 : Nat) = 2 ^ 8 := by norm_num
    rw [this] at hacc ha ⊢
    exact Nat.xor_lt_two_pow hacc ha

lemma and_255_of_lt {x : Nat} (h : x < 256) : x &&& 255 = x := by
  have h8 : (255 : Nat) = 2 ^ 8 - 1 := by norm_num
  have h256 : (256 : Nat) = 2 ^ 8 := by norm_num
  rw [h8]
  exact Nat.and_pow_two_sub_one_of_lt_two_pow (h256 ▸ h)

/-- XOR-accumulating over a frame with its checksum appended always yields
0xFF: the checksum byte complements the running XOR of the body. -/
lemma frame_fold_xor (b : List Nat) (h : ∀ x ∈ b, x < 256) :
    (b ++ [calculate_checksum b]).foldl (fun checksum value => checksum ^^^ value) 0 = 255 := by
  have hX : b.foldl (fun checksum value => checksum ^^^ value) 0 < 256 :=
    foldl_xor_lt b 0 (by norm_num) h
  set X := b.foldl (fun checksum value => checksum ^^^ value) 0 with hXdef
  have hcs : calculate_checksum b = X ^^^ 255 := by
    have hlt : X ^^^ 255 < 256 := by
      have : (256 : Nat) = 2 ^ 8 := by norm_num
      rw [this] at hX ⊢
      exact Nat.xor_lt_two_pow hX (by norm_num)
    simp only [calculate_checksum, ← hXdef]
    exact and_255_of_lt hlt
  rw [List.foldl_append, hcs]
  simp only [List.foldl_cons, List.foldl_nil, ← hXdef]
  rw [← Nat.xor_assoc, Nat.xor_self, Nat.zero_xor]

/-! ## Claim theorems -/

/-- C2 counterexample: the claim says appending the checksum makes the
whole-frame XOR (accumulator 0, nothing excluded) equal 0x00; already for the
empty byte sequence the whole-frame XOR is 0xFF, not 0x00. -/
theorem c2_counterexample :
    spec_frame_xor ([] ++ [calculate_checksum []]) = 0xFF ∧ (0xFF : Nat) ≠ 0 := by
  constructor <;> decide

/-- C2 (amended): for every byte sequence `b` of length at most 65535,
appending the computed checksum yields a frame whose XOR over all bytes
(accumulator 0, no byte excluded) equals 0xFF — not 0x00. -/
theorem c2_amended (b : List Nat) (h : ∀ x ∈ b, x < 256) (_hlen : b.length ≤ 65535) :
    spec_frame_xor (b ++ [calculate_checksum b]) = 0xFF := by
  unfold spec_frame_xor
  exact frame_fold_xor b h

/-- C2 witness: the amended invariant at the concrete frame body
[0xAB, 0xCD]. -/
theorem c2_witness :
    (∀ x ∈ [0xAB, 0xCD], x < 256) ∧ ([0xAB, 0xCD] : List Nat).length ≤ 65535 ∧
      spec_frame_xor ([0xAB, 0xCD] ++ [calculate_checksum [0xAB, 0xCD]]) = 0xFF :=
  ⟨by decide, by decide, c2_amended [0xAB, 0xCD] (by decide) (by decide)⟩

/-- C10: recomputing the checksum over a frame with its own checksum byte
appended yields 0 for every byte sequence, and the checksum value is always
in [0, 255]. -/
theorem c10_rechecksum_identity (b : List Nat) (h : ∀ x ∈ b, x < 256) :
    calculate_checksum (b ++ [calculate_checksum b]) = 0 ∧ calculate_checksum b ≤ 255 := by
  constructor
  · have h2 := frame_fold_xor b h
    unfold calculate_checksum at h2 ⊢
    rw [h2]
    decide
  · exact Nat.and_le_right

/-- C10 witness: the re-checksum identity at the concrete byte sequence
[0x12, 0x34]. -/
theorem c10_witness :
    (∀ x ∈ [0x12, 0x34], x < 256) ∧
      calculate_checksum ([0x12, 0x34] ++ [calculate_checksum [0x12, 0x34]]) = 0 ∧
      calculate_checksum [0x12, 0x34] ≤ 255 :=
  ⟨by decide, c10_rechecksum_identity [0x12, 0x34] (by decide)⟩

/-- C4 (code bug): the validation loop of `Client.auth` runs once per
password character, so the empty password skips validation entirely and is
accepted (`Except.ok []`), contradicting the documented rule that any
password other than 6 ASCII digits is rejected before socket I/O; "123456"
is accepted and "12a456" / "1234567" are rejected as documented. -/
theorem c4_password_validation_gap :
    auth_validate [] = Except.ok [] ∧
      auth_validate "123456".toList = Except.ok [1, 2, 3, 4, 5, 6] ∧
      auth_validate "12a456".toList =
        Except.error "Cannot parse password, only 6 integers long are accepted" ∧
      auth_validate "1234567".toList =
        Except.error "Cannot parse password, only 6 integers long are accepted" :=
  ⟨rfl, rfl, rfl, rfl⟩

/-- C9: for every partition argument, the arm and disarm frames carry 0xFF at
the partition position (index 8) when the argument is 0 and the argument
itself otherwise. -/
theorem c9_partition_sentinel (partition : Nat) :
    (arm_system_frame partition).getD 8 0 = (if partition = 0 then 0xFF else partition) ∧
      (disarm_system_frame partition).getD 8 0 = (if partition = 0 then 0xFF else partition) :=
  ⟨rfl, rfl⟩

/-- C9 witness: the sentinel encoding at partitions 0 and 3. -/
theorem c9_witness :
    (arm_system_frame 0).getD 8 0 = 0xFF ∧ (arm_system_frame 3).getD 8 0 = 3 ∧
      (disarm_system_frame 0).getD 8 0 = 0xFF :=
  ⟨((c9_partition_sentinel 0).1).trans (by decide),
   ((c9_partition_sentinel 3).1).trans (by decide),
   ((c9_partition_sentinel 0).2).trans (by decide)⟩

/-- C6 counterexample: six consecutive failures from a fresh coordinator give
delays [2, 4, 8, 16, 300, 2]; the sequence decreases from its 5th to its 6th
element and its 5th element exceeds the configured 60-second maximum, so the
delays are neither non-decreasing nor bounded by the configured maximum. -/
theorem c6_counterexample :
    backoff_delays 0 6 = [2, 4, 8, 16, 300, 2] ∧
      (backoff_delays 0 6).getD 5 0 < (backoff_delays 0 6).getD 4 0 ∧
      60 < (backoff_delays 0 6).getD 4 0 := by
  refine ⟨?_, ?_, ?_⟩ <;> decide

/-- C6 (amended): the failure counter never exceeds max_retries = 5 after
either error handler; every communication backoff is bounded by 300 seconds
(the penalty applied when the cap is reached, which also resets the counter
to 0); and within one run of five consecutive failures from a fresh
coordinator the delays [2, 4, 8, 16, 300] are non-decreasing. -/
theorem c6_amended :
    (∀ attempt, (handle_communication_error attempt).1 ≤ max_retries) ∧
      (∀ attempt, (handle_communication_error attempt).2 ≤ 300) ∧
      (∀ attempt, (handle_unexpected_error attempt).1 ≤ max_retries) ∧
      backoff_delays 0 max_retries = [2, 4, 8, 16, 300] ∧
      List.Pairwise (· ≤ ·) (backoff_delays 0 max_retries) := by
  refine ⟨?_, ?_, ?_, by decide, by decide⟩
  · intro attempt
    simp only [handle_communication_error, max_retries]
    split
    · exact Nat.zero_le _
    · exact Nat.min_le_right _ _
  · intro attempt
    simp only [handle_communication_error, max_retries]
    split
    · exact le_refl _
    · exact le_trans (Nat.min_le_right _ _) (by norm_num)
  · intro attempt
    exact Nat.min_le_right _ _

/-- C6 witness: the counter cap and delay bound evaluated at counter value
3. -/
theorem c6_witness :
    (handle_communication_error 3).1 ≤ max_retries ∧
      (handle_communication_error 3).2 ≤ 300 :=
  ⟨c6_amended.1 3, c6_amended.2.1 3⟩

/-- C8: battery decoding maps payload byte 134 as 1 → dead, 2 → low,
3 → middle, 4 → full, anything else → unknown, and every payload shorter
than 135 bytes yields unknown. -/
theorem c8_battery_mapping :
    (∀ resp : List Nat, resp.length ≤ 134 → battery_status_for resp = "unknown") ∧
      (∀ resp : List Nat, 134 < resp.length →
        battery_status_for resp =
          (if resp.getD 134 0 = 1 then "dead"
           else if resp.getD 134 0 = 2 then "low"
           else if resp.getD 134 0 = 3 then "middle"
           else if resp.getD 134 0 = 4 then "full"
           else "unknown")) := by
  constructor
  · intro resp h
    simp only [battery_status_for, if_pos h]
  · intro resp h
    simp only [battery_status_for, if_neg (Nat.not_le.mpr h)]

/-- C8 witness: a 135-byte payload whose byte 134 is 0x04 decodes to a full
battery. -/
theorem c8_witness :
    134 < (List.replicate 134 (0 : Nat) ++ [4]).length ∧
      battery_status_for (List.replicate 134 (0 : Nat) ++ [4]) = "full" :=
  ⟨by decide, (c8_battery_mapping.2 _ (by decide)).trans (by decide)⟩

/-- C3: status decoding of any input shorter than 8 bytes yields the
fully-defaulted status record, as do the concrete cases of an empty input, a
7-byte input, and an 8-byte header whose declared payload is entirely
missing. -/
theorem c3_build_status_defaults :
    (∀ data : List Nat, data.length < 8 → build_status data = unknown_status) ∧
      build_status [] = unknown_status ∧
      build_status (List.replicate 7 0) = unknown_status ∧
      build_status [0, 0, 0, 0, 0, 255, 0, 0] = unknown_status := by
  refine ⟨?_, rfl, rfl, rfl⟩
  intro data h
  simp only [build_status, if_pos h]

/-- C3 witness: the short-input default behaviour at the 7-byte zero
input. -/
theorem c3_witness :
    (List.replicate 7 (0 : Nat)).length < 8 ∧
      build_status (List.replicate 7 (0 : Nat)) = unknown_status :=
  ⟨by decide, c3_build_status_defaults.1 _ (by decide)⟩

/-- C5 counterexample: a status response whose payload byte 20 is 0b01100000
decodes to arming state "armed_away" (the two arming bits are 0b11) with no
zonesFiring/zonesClosed/siren flags — not to PartiallyArmed with
zonesFiring and zonesClosed set as the claim states. -/
theorem c5_counterexample :
    (build_status ([0, 0, 0, 0, 0, 21, 0, 0] ++ List.replicate 20 0 ++ [0x60])).status
        = "armed_away" ∧
      (build_status ([0, 0, 0, 0, 0, 21, 0, 0] ++ List.replicate 20 0 ++ [0x60])).zonesFiring
        = false ∧
      (build_status ([0, 0, 0, 0, 0, 21, 0, 0] ++ List.replicate 20 0 ++ [0x60])).zonesClosed
        = false ∧
      (build_status ([0, 0, 0, 0, 0, 21, 0, 0] ++ List.replicate 20 0 ++ [0x60])).siren
        = false ∧
      ("armed_away" : String) ≠ "partial_armed" :=
  ⟨rfl, rfl, rfl, rfl, by decide⟩

/-- C5 (amended): the arming state is bits 5-6 of payload byte 20 masked
with 0x03 (0 → disarmed, 1 → partial_armed, 3 → armed_away, other →
unknown), and the byte value realising the claimed outcome is 0b00101100:
it decodes to partial_armed with zonesFiring and zonesClosed set and siren
clear. -/
theorem c5_amended :
    (∀ payload : List Nat, 20 < payload.length →
        get_status payload =
          (if (payload.getD 20 0 >>> 5) &&& 0x03 = 0 then "disarmed"
           else if (payload.getD 20 0 >>> 5) &&& 0x03 = 1 then "partial_armed"
           else if (payload.getD 20 0 >>> 5) &&& 0x03 = 3 then "armed_away"
           else "unknown")) ∧
      (build_status ([0, 0, 0, 0, 0, 21, 0, 0] ++ List.replicate 20 0 ++ [0x2C])).status
        = "partial_armed" ∧
      (build_status ([0, 0, 0, 0, 0, 21, 0, 0] ++ List.replicate 20 0 ++ [0x2C])).zonesFiring
        = true ∧
      (build_status ([0, 0, 0, 0, 0, 21, 0, 0] ++ List.replicate 20 0 ++ [0x2C])).zonesClosed
        = true ∧
      (build_status ([0, 0, 0, 0, 0, 21, 0, 0] ++ List.replicate 20 0 ++ [0x2C])).siren
        = false := by
  refine ⟨?_, rfl, rfl, rfl, rfl⟩
  intro payload h
  simp only [get_status, if_neg (Nat.not_le.mpr h)]

/-- C5 witness: the arming-state mapping at an all-zero 21-byte payload. -/
theorem c5_witness :
    20 < (List.replicate 21 (0 : Nat)).length ∧
      get_status (List.replicate 21 (0 : Nat)) = "disarmed" :=
  ⟨by decide, (c5_amended.1 _ (by decide)).trans (by decide)⟩

/-- C1 counterexample: for a status response carrying the full 8-byte zone
table, the all-zero table decodes every zone as "open" (not closed), and a
table whose first byte has only bit 0 set decodes zone 1 as "closed" and
zone 2 as "open" — the opposite polarity of the claim. -/
theorem c1_counterexample :
    (build_status ([0, 0, 0, 0, 0, 72, 0, 0] ++ List.replicate 72 0)).zones.lookup 1
        = some "open" ∧
      ((build_status ([0, 0, 0, 0, 0, 72, 0, 0] ++ List.replicate 72 0)).zones.all
        (fun p => p.2 == "open")) = true ∧
      (build_status ([0, 0, 0, 0, 0, 72, 0, 0] ++ List.replicate 64 0 ++ [1]
          ++ List.replicate 7 0)).zones.lookup 1 = some "closed" ∧
      (build_status ([0, 0, 0, 0, 0, 72, 0, 0] ++ List.replicate 64 0 ++ [1]
          ++ List.replicate 7 0)).zones.lookup 2 = some "open" :=
  ⟨rfl, rfl, rfl, rfl⟩

/-- C1 (amended): when the payload contains the full 8-byte zone table
(length ≥ 72), zone n (1-based) is reported open iff bit ((n-1) mod 8) of
zone-table byte ((n-1) div 8) is CLEAR, in byte-major, LSB-first order: the
decoded table is exactly the 64 entries (k+1, open-iff-bit-k-clear). -/
theorem c1_amended (payload : List Nat) (h : 72 ≤ payload.length) :
    build_zones payload = (List.range 64).map (fun k =>
      (k + 1,
       if payload.getD (64 + k / 8) 0 &&& (1 <<< (k % 8)) = 0 then "open" else "closed")) := by
  have h8 : min 8 (payload.length - ZONE_PAYLOAD_OFFSET) = 8 := by
    simp only [ZONE_PAYLOAD_OFFSET]
    omega
  simp only [build_zones, h8]
  rfl

/-- C1 witness: the zone-table characterisation at the all-zero 72-byte
payload. -/
theorem c1_witness :
    72 ≤ (List.replicate 72 (0 : Nat)).length ∧
      build_zones (List.replicate 72 (0 : Nat)) = (List.range 64).map (fun k =>
        (k + 1,
         if (List.replicate 72 (0 : Nat)).getD (64 + k / 8) 0 &&& (1 <<< (k % 8)) = 0
         then "open" else "closed")) :=
  ⟨by decide, c1_amended (List.replicate 72 (0 : Nat)) (by decide)⟩

lemma update_data_stored_ne_none {α : Type} (st : CoordState α) (o : PollOutcome α)
    (h : st.stored ≠ none) : (update_data st o).1.stored ≠ none := by
  cases o with
  | success s => simp [update_data]
  | commError =>
    cases hs : st.stored with
    | some d => simp [update_data, hs]
    | none => exact absurd hs h
  | unexpectedError =>
    cases hs : st.stored with
    | some d => simp [update_data, hs]
    | none => exact absurd hs h

lemma run_polls_stored_ne_none {α : Type} (st : CoordState α)
    (outcomes : List (PollOutcome α)) (h : st.stored ≠ none) :
    (run_polls st outcomes).stored ≠ none := by
  induction outcomes generalizing st with
  | nil => exact h
  | cons o rest ih =>
    simp only [run_polls, List.foldl_cons]
    exact ih _ (update_data_stored_ne_none st o h)

lemma run_polls_stored_of_success {α : Type} (st : CoordState α)
    (outcomes : List (PollOutcome α)) (h : ∃ o ∈ outcomes, o.isSuccess = true) :
    (run_polls st outcomes).stored ≠ none := by
  induction outcomes generalizing st with
  | nil =>
    rcases h with ⟨o, ho, _⟩
    exact absurd ho (List.not_mem_nil o)
  | cons o rest ih =>
    rcases h with ⟨o', ho', hsucc⟩
    simp only [run_polls, List.foldl_cons]
    rcases List.mem_cons.mp ho' with rfl | hmem
    · have h1 : (update_data st o').1.stored ≠ none := by
        cases o' with
        | success s => simp [update_data]
        | commError => simp [PollOutcome.isSuccess] at hsucc
        | unexpectedError => simp [PollOutcome.isSuccess] at hsucc
      exact run_polls_stored_ne_none _ rest h1
    · exact ih _ ⟨o', hmem, hsucc⟩

/-- C7: a failing poll performed with a cached snapshot returns exactly that
snapshot and leaves it stored unchanged; an update-failed error is produced
only when no snapshot is cached; and after any poll history containing at
least one success the cache is never empty (so a failure then cannot raise). -/
theorem c7_stale_serving :
    (∀ (α : Type) (st : CoordState α) (d : α), st.stored = some d →
        (update_data st PollOutcome.commError).2 = Except.ok d ∧
        (update_data st PollOutcome.commError).1.stored = some d ∧
        (update_data st PollOutcome.unexpectedError).2 = Except.ok d) ∧
      (∀ (α : Type) (st : CoordState α) (o : PollOutcome α) (e : String),
        (update_data st o).2 = Except.error e → st.stored = none) ∧
      (∀ (α : Type) (st : CoordState α) (outcomes : List (PollOutcome α)),
        (∃ o ∈ outcomes, o.isSuccess = true) → (run_polls st outcomes).stored ≠ none) := by
  refine ⟨?_, ?_, ?_⟩
  · intro α st d hd
    refine ⟨?_, ?_, ?_⟩ <;> simp [update_data, hd]
  · intro α st o e he
    cases o with
    | success s => simp [update_data] at he
    | commError =>
      cases hs : st.stored with
      | some d => simp [update_data, hs] at he
      | none => rfl
    | unexpectedError =>
      cases hs : st.stored with
      | some d => simp [update_data, hs] at he
      | none => rfl
  · intro α st outcomes h
    exact run_polls_stored_of_success st outcomes h

/-- C7 witness: stale-serving at the concrete state holding snapshot 7. -/
theorem c7_witness :
    ((⟨some 7, 2⟩ : CoordState Nat).stored = some 7) ∧
      (update_data (⟨some 7, 2⟩ : CoordState Nat) PollOutcome.commError).2 = Except.ok 7 ∧
      (update_data (⟨some 7, 2⟩ : CoordState Nat) PollOutcome.commError).1.stored = some 7 :=
  ⟨rfl, (c7_stale_serving.1 Nat ⟨some 7, 2⟩ 7 rfl).1,
   (c7_stale_serving.1 Nat ⟨some 7, 2⟩ 7 rfl).2.1⟩

end Amt8000
